import Mathlib

/-!
Verification of the cantina logger core (logger.h / logger.cpp).

The embedding models the `Logger` parent/child chain, its `Log` delegation
and emission decision, facility and level configuration, and the
`LoggingBuf` capture-buffer protocol (`thread_sync` / `sync`).  Machine
side effects (emission at the root, forwarding to the parent, syslog or
file handle operations, `Log` calls issued by helpers) are made explicit
as event values returned by the modelled operations.
-/

namespace Cantina

/-- Severity enumeration from logger.h: Critical, Error, Warning, Info,
Debug, with underlying values 0..4 (C++ `enum class LogLevel`). -/
inductive LogLevel
  | Critical
  | Error
  | Warning
  | Info
  | Debug
deriving DecidableEq, Repr

/-- Underlying integer value of a `LogLevel` (the C++ enumerator value);
C++ comparisons such as `level > log_level` compare these numbers. -/
def LogLevel.toNat : LogLevel → Nat
  | .Critical => 0
  | .Error => 1
  | .Warning => 2
  | .Info => 3
  | .Debug => 4

/-- Logging facility enumeration from logger.h (`enum class LogFacility`). -/
inductive LogFacility
  | None
  | Console
  | Syslog
  | File
  | AndroidLog
deriving DecidableEq, Repr

/-- Per-node state of a `Logger` object: the fields initialized by the
delegated constructor in logger.cpp (strings, facility, level, flags and
timestamp precision).  The parent link is carried by the `Logger` tree
type below. -/
structure LoggerNode where
  process_name : String
  component_name : String
  log_facility : LogFacility
  log_level : LogLevel
  output_to_console : Bool
  colorize : Bool
  time_digits : Nat
  time_modulo : Nat
deriving DecidableEq, Repr

/-- A logger with its chain of parents: `root` has no parent
(`parent_logger == nullptr`), `child` holds a shared pointer to its
parent. -/
inductive Logger
  | root (node : LoggerNode)
  | child (node : LoggerNode) (parent : Logger)
deriving DecidableEq, Repr

namespace Logger

/-- The node data stored in this logger object itself. -/
def headNode : Logger → LoggerNode
  | .root n => n
  | .child n _ => n

/-- The node data of the root reached by following parent links. -/
def rootNode : Logger → LoggerNode
  | .root n => n
  | .child _ p => p.rootNode

/-- Node data of this logger and of every ancestor, ordered from this
node up to the root. -/
def chainNodes : Logger → List LoggerNode
  | .root n => [n]
  | .child n p => n :: p.chainNodes

/-- Node data of the strict ancestors of this logger (empty at a root). -/
def ancestorNodes : Logger → List LoggerNode
  | .root _ => []
  | .child _ p => p.chainNodes

/-- `Logger::GetLogFacility`: a child delegates to its parent, only the
root reports its own stored facility. -/
def GetLogFacility : Logger → LogFacility
  | .root n => n.log_facility
  | .child _ p => p.GetLogFacility

/-- `Logger::GetLogLevel`: always the node's own stored level, with no
delegation to the parent. -/
def GetLogLevel (l : Logger) : LogLevel := l.headNode.log_level

/-- `Logger::IsColorized`: the parent controls color when there is one. -/
def IsColorized : Logger → Bool
  | .root n => n.colorize
  | .child _ p => p.IsColorized

/-- `Logger::IsDebugging`: `log_level >= LogLevel::Debug` on the node's
own level. -/
def IsDebugging (l : Logger) : Bool :=
  LogLevel.Debug.toNat ≤ l.headNode.log_level.toNat

end Logger

/-- Message formatting step of `Logger::Log`: a non-empty component name
prepends itself in brackets, an empty one leaves the text unchanged. -/
def applyLabel (component_name message : String) : String :=
  if component_name.length > 0 then "[" ++ component_name ++ "] " ++ message
  else message

/-- Observable action taken by one activation of `Logger::Log`: either a
recursive call `parent_logger->Log(...)` or the root's `EmitLog(...)`. -/
inductive LogEvent
  | forward (level : LogLevel) (message : String) (console : Bool)
  | emit (level : LogLevel) (message : String) (console : Bool)
deriving DecidableEq, Repr

/-- True exactly on `emit` events. -/
def isEmitEvent : LogEvent → Bool
  | .emit _ _ _ => true
  | _ => false

/-- Whether a trace of `Log` events reaches the root's emission step. -/
def hasEmission (es : List LogEvent) : Bool := es.any isEmitEvent

namespace Logger

/-- `Logger::Log(level, message, console)` as an event trace.  Mirrors
logger.cpp: or the console flag with `output_to_console`; return with no
effect when the root's facility (via `GetLogFacility`) is `None`; return
with no effect when `level > log_level` for this node's own level;
prepend the component label; then either forward to the parent or emit
at the root. -/
def Log : Logger → LogLevel → String → Bool → List LogEvent
  | .root n, level, message, console =>
    let console := console || n.output_to_console
    if n.log_facility = LogFacility.None then []
    else if n.log_level.toNat < level.toNat then []
    else [LogEvent.emit level (applyLabel n.component_name message) console]
  | .child n p, level, message, console =>
    let console := console || n.output_to_console
    if p.GetLogFacility = LogFacility.None then []
    else if n.log_level.toNat < level.toNat then []
    else
      let fm := applyLabel n.component_name message
      LogEvent.forward level fm console :: p.Log level fm console

end Logger

/-- Construction of a root logger (delegated constructor with
`parent_logger == nullptr`): facility `Console`, level `Info`, time
digits 6, time modulo 1000000; the colorize flag comes from
`IsColorPossible()`, an environment probe passed in here as
`colorPossible`. -/
def Logger.mkRoot (process_name component_name : String)
    (output_to_console colorPossible : Bool) : Logger :=
  .root
    { process_name := process_name
      component_name := component_name
      log_facility := LogFacility.Console
      log_level := LogLevel.Info
      output_to_console := output_to_console
      colorize := colorPossible
      time_digits := 6
      time_modulo := 1000000 }

/-- Construction of a child logger (delegated constructor with a
non-null `parent_logger`): the level copies `parent_logger->GetLogLevel()`
and the colorize flag copies `parent_logger->IsColorized()` at
construction time; facility and precision are initialized as for a
root. -/
def Logger.mkChild (component_name : String) (parent : Logger)
    (output_to_console : Bool) : Logger :=
  .child
    { process_name := ""
      component_name := component_name
      log_facility := LogFacility.Console
      log_level := parent.GetLogLevel
      output_to_console := output_to_console
      colorize := parent.IsColorized
      time_digits := 6
      time_modulo := 1000000 }
    parent

/-- A call `Log(level, message, console)` issued to a `Logger` by one of
the helper routines (`SetLogLevel` on a bad string, `thread_sync` on
timeout, `sync` on flush). -/
structure LogCall where
  level : LogLevel
  message : String
  console : Bool
deriving DecidableEq, Repr

/-- Uppercasing applied by `Logger::SetLogLevel(std::string)` via
`std::transform(..., ::toupper)`: every character mapped to its ASCII
uppercase. -/
def toUpperStr (s : String) : String := ⟨s.data.map Char.toUpper⟩

/-- `Logger::SetLogLevel(LogLevel)`: stores the level on this node's own
state only. -/
def Logger.SetLogLevel : Logger → LogLevel → Logger
  | .root n, lv => .root { n with log_level := lv }
  | .child n p, lv => .child { n with log_level := lv } p

/-- `Logger::SetLogLevel(std::string)`: uppercase the argument, match it
against the five level names, and on any other string issue one
`Log(LogLevel::Error, ..., true)` call and store `Info`.  Returns the
updated logger and the list of `Log` calls issued. -/
def Logger.SetLogLevelString (l : Logger) (level : String) :
    Logger × List LogCall :=
  let c := toUpperStr level
  if c = "INFO" then (l.SetLogLevel LogLevel.Info, [])
  else if c = "ERROR" then (l.SetLogLevel LogLevel.Error, [])
  else if c = "WARNING" then (l.SetLogLevel LogLevel.Warning, [])
  else if c = "CRITICAL" then (l.SetLogLevel LogLevel.Critical, [])
  else if c = "DEBUG" then (l.SetLogLevel LogLevel.Debug, [])
  else
    (l.SetLogLevel LogLevel.Info,
     [{ level := LogLevel.Error
        message := "Unknown log level \"" ++ level ++
          "\"; setting log level to \"INFO\""
        console := true }])

/-- Resource action performed by `Logger::SetLogFacility` on the root:
`closelog()`, `log_file.close()`, `openlog(...)`, the attempt to open
the log file, and the error text written to the console stream when the
open fails. -/
inductive SinkEffect
  | closeSyslog
  | closeFile
  | openSyslog (ident : String)
  | openFileAttempt (filename : String)
  | consoleError (message : String)
deriving DecidableEq, Repr

/-- `Logger::SetLogFacility(facility, filename)` (POSIX build): return
at once on a child; on the root do nothing when the facility is
unchanged, otherwise close the previous syslog or file resource, open
the new one, and on a failed file open report an error on the console
stream and store `None` in place of `File`.  The success of the file
open depends on the machine and is passed in as `openOk`. -/
def Logger.SetLogFacility : Logger → LogFacility → String → Bool →
    Logger × List SinkEffect
  | .child n p, _, _, _ => (.child n p, [])
  | .root n, facility, filename, openOk =>
    if n.log_facility = facility then (.root n, [])
    else
      let closeEffects :=
        (if n.log_facility = LogFacility.Syslog
          then [SinkEffect.closeSyslog] else []) ++
        (if n.log_facility = LogFacility.File
          then [SinkEffect.closeFile] else [])
      let opened : List SinkEffect × LogFacility :=
        if facility = LogFacility.Syslog then
          ([SinkEffect.openSyslog n.process_name], facility)
        else if facility = LogFacility.File then
          if openOk then ([SinkEffect.openFileAttempt filename], facility)
          else
            ([SinkEffect.openFileAttempt filename,
              SinkEffect.consoleError
                ("ERROR: Logger unable to open log file for writing: " ++
                  filename)],
             LogFacility.None)
        else ([], facility)
      (.root { n with log_facility := opened.2 }, closeEffects ++ opened.1)

/-- State of one `Logger::LoggingBuf` capture buffer: the accumulated
string (`str()`), the `busy` flag, the owning thread id, and the fixed
per-buffer log level and console flag set at construction. -/
structure LoggingBuf where
  text : String
  busy : Bool
  owning_thread : Nat
  log_level : LogLevel
  console : Bool
deriving DecidableEq, Repr

/-- Duration in seconds of the bounded wait in
`LoggingBuf::thread_sync` (`std::chrono::seconds(1)`). -/
def threadSyncWaitSeconds : Nat := 1

/-- The predicate `thread_sync` waits for:
`!busy || (busy && owning_thread == this_thread)`. -/
def LoggingBuf.waitPredicateHolds (buf : LoggingBuf) (tid : Nat) : Bool :=
  !buf.busy || (buf.busy && buf.owning_thread == tid)

/-- `LoggingBuf::thread_sync` for the calling thread `tid`, taking the
buffer state observed when the bounded wait ends: when the wait
predicate is still false (the wait timed out), issue one
`Log(LogLevel::Error, "Somebody forgot to call std::flush!?")` call and
clear `busy`; then, when the buffer is not busy, take ownership for
`tid`.  Returns the new buffer state and the `Log` calls issued. -/
def LoggingBuf.thread_sync (buf : LoggingBuf) (tid : Nat) :
    LoggingBuf × List LogCall :=
  let afterWait : LoggingBuf × List LogCall :=
    if buf.waitPredicateHolds tid = false then
      ({ buf with busy := false },
       [{ level := LogLevel.Error
          message := "Somebody forgot to call std::flush!?"
          console := false }])
    else (buf, [])
  if afterWait.1.busy = false then
    ({ afterWait.1 with busy := true, owning_thread := tid }, afterWait.2)
  else afterWait

/-- `LoggingBuf::sync` (reached by `std::flush`) for the calling thread
`tid`: run `thread_sync`, hand the accumulated text to the owning
logger via `Log(log_level, str(), console)`, clear the text, clear
`busy`, and call `notify_one()` once.  Returns the new buffer state,
the `Log` calls issued in order, and the number of `notify_one`
calls. -/
def LoggingBuf.sync (buf : LoggingBuf) (tid : Nat) :
    LoggingBuf × List LogCall × Nat :=
  let r := buf.thread_sync tid
  ({ r.1 with text := "", busy := false },
   r.2 ++ [{ level := r.1.log_level, message := r.1.text,
             console := r.1.console }],
   1)

/-! ## Helper lemmas -/

/-- `GetLogFacility` reports the facility stored at the root of the
parent chain. -/
theorem getLogFacility_eq_rootNode (l : Logger) :
    l.GetLogFacility = l.rootNode.log_facility := by
  induction l with
  | root n => rfl
  | child n p ih => simpa [Logger.GetLogFacility, Logger.rootNode] using ih

/-- The chain of a logger is its own node followed by its ancestors. -/
theorem chainNodes_eq_head_cons_ancestors (l : Logger) :
    l.chainNodes = l.headNode :: l.ancestorNodes := by
  cases l <;> rfl

/-- A `forward` event does not count as emission. -/
theorem hasEmission_cons_forward (lv : LogLevel) (m : String) (c : Bool)
    (es : List LogEvent) :
    hasEmission (LogEvent.forward lv m c :: es) = hasEmission es := by
  simp [hasEmission, isEmitEvent]

/-- Characterization of emission: a `Log` call reaches the root's
emission step exactly when the root's facility is not `None` and the
severity passes the stored threshold of every node on the chain. -/
theorem log_hasEmission (l : Logger) (S : LogLevel) (m : String) (b : Bool) :
    hasEmission (l.Log S m b) = true ↔
      (l.GetLogFacility ≠ LogFacility.None ∧
        ∀ nd ∈ l.chainNodes, S.toNat ≤ nd.log_level.toNat) := by
  induction l generalizing m b with
  | root n =>
    by_cases hf : n.log_facility = LogFacility.None
    · simp [Logger.Log, Logger.GetLogFacility, hf, hasEmission]
    · by_cases hl : n.log_level.toNat < S.toNat
      · simp [Logger.Log, Logger.GetLogFacility, Logger.chainNodes, hf, hl,
          hasEmission]
        try omega
      · simp [Logger.Log, Logger.GetLogFacility, Logger.chainNodes, hf, hl,
          hasEmission, isEmitEvent]
        try omega
  | child n p ih =>
    by_cases hf : p.GetLogFacility = LogFacility.None
    · simp [Logger.Log, Logger.GetLogFacility, hf, hasEmission]
    · by_cases hl : n.log_level.toNat < S.toNat
      · simp [Logger.Log, Logger.GetLogFacility, Logger.chainNodes, hf, hl,
          hasEmission]
        try omega
      · simp only [Logger.Log, hf, hl, if_false, if_neg, ite_false]
        simp only [Logger.GetLogFacility, Logger.chainNodes]
        rw [hasEmission_cons_forward, ih]
        constructor
        · rintro ⟨h1, h2⟩
          refine ⟨h1, ?_⟩
          intro nd hnd
          rcases List.mem_cons.mp hnd with h | h
          · subst h
            omega
          · exact h2 nd h
        · rintro ⟨h1, h2⟩
          exact ⟨h1, fun nd hnd => h2 nd (List.mem_cons_of_mem _ hnd)⟩

/-- A severity strictly less important than this node's own threshold
makes `Log` return with an empty trace. -/
theorem log_eq_nil_of_filtered (l : Logger) (S : LogLevel) (m : String)
    (b : Bool) (h : l.headNode.log_level.toNat < S.toNat) :
    l.Log S m b = [] := by
  cases l with
  | root n =>
    have h2 : n.log_level.toNat < S.toNat := h
    by_cases hf : n.log_facility = LogFacility.None
    · simp [Logger.Log, hf]
    · simp [Logger.Log, hf, h2]
  | child n p =>
    have h2 : n.log_level.toNat < S.toNat := h
    by_cases hf : p.GetLogFacility = LogFacility.None
    · simp [Logger.Log, hf]
    · simp [Logger.Log, hf, h2]

/-! ## Concrete states used for counterexamples and witnesses -/

/-- A root-style node: Console facility, threshold Critical, no label. -/
def nodeConsoleCritical : LoggerNode :=
  { process_name := ""
    component_name := ""
    log_facility := LogFacility.Console
    log_level := LogLevel.Critical
    output_to_console := false
    colorize := false
    time_digits := 6
    time_modulo := 1000000 }

/-- Same node with threshold Debug. -/
def nodeConsoleDebug : LoggerNode :=
  { nodeConsoleCritical with log_level := LogLevel.Debug }

/-- Same node with threshold Info. -/
def nodeConsoleInfo : LoggerNode :=
  { nodeConsoleCritical with log_level := LogLevel.Info }

/-- Node with facility `None` and threshold Debug. -/
def nodeNoneDebug : LoggerNode :=
  { nodeConsoleCritical with
      log_facility := LogFacility.None
      log_level := LogLevel.Debug }

/-- Node labeled "LTST" with threshold Info. -/
def nodeLTST : LoggerNode :=
  { nodeConsoleInfo with component_name := "LTST" }

/-! ## Claim theorems -/

/-- Claim C1: for every node with stored threshold `T`, `Log(S, text)`
proceeds past the severity check iff `S` is at least as important as
`T`, i.e. `S.toNat ≤ T.toNat` under Critical=0..Debug=4: when `S` fails
the check the call returns with no forwarding and no emission, and when
it passes — and the root's sink is not `None` and no ancestor hop
filters it — the message reaches the root's emission step. -/
theorem log_severity_filter (l : Logger) (S : LogLevel) (m : String)
    (b : Bool) :
    (l.headNode.log_level.toNat < S.toNat → l.Log S m b = []) ∧
    (S.toNat ≤ l.headNode.log_level.toNat →
      l.GetLogFacility ≠ LogFacility.None →
      (∀ nd ∈ l.ancestorNodes, S.toNat ≤ nd.log_level.toNat) →
      hasEmission (l.Log S m b) = true) := by
  refine ⟨fun h => log_eq_nil_of_filtered l S m b h, fun h1 h2 h3 => ?_⟩
  rw [log_hasEmission]
  refine ⟨h2, ?_⟩
  intro nd hnd
  rw [chainNodes_eq_head_cons_ancestors] at hnd
  rcases List.mem_cons.mp hnd with h | h
  · subst h
    exact h1
  · exact h3 nd h

/-- Witness for C1: a root with threshold Info suppresses a Debug
message and emits an Info message. -/
theorem log_severity_filter_witness :
    (Logger.root nodeConsoleInfo).Log LogLevel.Debug "x" false = [] ∧
    hasEmission
      ((Logger.root nodeConsoleInfo).Log LogLevel.Info "x" false) = true := by
  refine
    ⟨(log_severity_filter (Logger.root nodeConsoleInfo) LogLevel.Debug "x"
        false).1 (by decide),
      (log_severity_filter (Logger.root nodeConsoleInfo) LogLevel.Info "x"
        false).2 (by decide) (by decide) ?_⟩
  intro nd hnd
  simp [Logger.ancestorNodes] at hnd

/-- Claim C2 counterexample: with root threshold Critical, child
threshold Debug and root sink Console, a Debug message is accepted and
forwarded by the child but filtered by the parent's own threshold, so it
never reaches the root's emission step — refuting "the parent applies no
further severity filtering". -/
theorem parent_filters_forwarded_message :
    nodeConsoleCritical.log_facility ≠ LogFacility.None ∧
    LogLevel.Debug.toNat ≤ nodeConsoleDebug.log_level.toNat ∧
    (Logger.child nodeConsoleDebug (Logger.root nodeConsoleCritical)).Log
        LogLevel.Debug "hello" false =
      [LogEvent.forward LogLevel.Debug "hello" false] ∧
    hasEmission
      ((Logger.child nodeConsoleDebug (Logger.root nodeConsoleCritical)).Log
        LogLevel.Debug "hello" false) = false := by
  decide

/-- Claim C2 (amended): when a child accepts a message under its own
severity check and forwards it, every ancestor hop — the parent
included — applies its own severity check as well: the forwarded message
reaches the root's emission step iff the root's sink is not `None` and
the severity passes the stored threshold of every node on the parent
chain. -/
theorem forwarded_message_emission_iff (n : LoggerNode) (p : Logger)
    (S : LogLevel) (m : String) (b : Bool)
    (hs : S.toNat ≤ n.log_level.toNat) :
    hasEmission ((Logger.child n p).Log S m b) = true ↔
      (p.GetLogFacility ≠ LogFacility.None ∧
        ∀ nd ∈ p.chainNodes, S.toNat ≤ nd.log_level.toNat) := by
  rw [log_hasEmission]
  simp only [Logger.GetLogFacility, Logger.chainNodes]
  constructor
  · rintro ⟨h1, h2⟩
    exact ⟨h1, fun nd hnd => h2 nd (List.mem_cons_of_mem _ hnd)⟩
  · rintro ⟨h1, h2⟩
    refine ⟨h1, ?_⟩
    intro nd hnd
    rcases List.mem_cons.mp hnd with h | h
    · subst h
      exact hs
    · exact h2 nd h

/-- Witness for the amended C2: an Info message forwarded by a child
labeled "LTST" is emitted when the root's threshold also passes. -/
theorem forwarded_message_emission_iff_witness :
    hasEmission ((Logger.child nodeLTST (Logger.root nodeConsoleInfo)).Log
      LogLevel.Info "x" false) = true := by
  refine (forwarded_message_emission_iff nodeLTST
    (Logger.root nodeConsoleInfo) LogLevel.Info "x" false (by decide)).mpr
    ⟨by decide, ?_⟩
  intro nd hnd
  simp [Logger.chainNodes] at hnd
  subst hnd
  decide

/-- Claim C7: for every node in a tree, `Log` first consults the root's
current facility (through parent references); when that facility is
`None` the call returns at once with an empty trace — nothing forwarded
and nothing emitted. -/
theorem log_noop_when_root_facility_none (l : Logger) (S : LogLevel)
    (m : String) (b : Bool)
    (h : l.rootNode.log_facility = LogFacility.None) :
    l.Log S m b = [] := by
  cases l with
  | root n =>
    have h2 : n.log_facility = LogFacility.None := h
    simp [Logger.Log, h2]
  | child n p =>
    have hf : p.GetLogFacility = LogFacility.None := by
      rw [getLogFacility_eq_rootNode]
      exact h
    simp [Logger.Log, hf]

/-- Witness for C7: a child whose own stored facility is Console still
produces no events when the root's facility is `None`. -/
theorem log_noop_when_root_facility_none_witness :
    (Logger.child nodeConsoleDebug (Logger.root nodeNoneDebug)).Log
      LogLevel.Critical "x" true = [] :=
  log_noop_when_root_facility_none
    (Logger.child nodeConsoleDebug (Logger.root nodeNoneDebug))
    LogLevel.Critical "x" true (by decide)

/-- Claim C9: `GetLogFacility` on a child returns the root's stored
facility (delegating through every parent link), while `GetLogLevel`
returns the child's own stored threshold with no delegation, for all
configurations. -/
theorem facility_delegates_level_local (n : LoggerNode) (p : Logger) :
    (Logger.child n p).GetLogFacility =
      (Logger.child n p).rootNode.log_facility ∧
    (Logger.child n p).GetLogLevel = n.log_level :=
  ⟨getLogFacility_eq_rootNode (Logger.child n p), rfl⟩

/-- Claim C10: a freshly constructed root has facility Console, level
Info and microsecond precision (6 digits, modulo 1000000), so
`IsDebugging` is false right after construction; a freshly constructed
child copies its parent's current threshold (`GetLogLevel`) and
colorization flag (`IsColorized`) at construction time. -/
theorem construction_defaults :
    (∀ (pn cn : String) (otc cp : Bool),
      (Logger.mkRoot pn cn otc cp).headNode.log_facility =
        LogFacility.Console ∧
      (Logger.mkRoot pn cn otc cp).headNode.log_level = LogLevel.Info ∧
      (Logger.mkRoot pn cn otc cp).headNode.time_digits = 6 ∧
      (Logger.mkRoot pn cn otc cp).headNode.time_modulo = 1000000 ∧
      (Logger.mkRoot pn cn otc cp).IsDebugging = false) ∧
    (∀ (cn : String) (p : Logger) (otc : Bool),
      (Logger.mkChild cn p otc).headNode.log_level = p.GetLogLevel ∧
      (Logger.mkChild cn p otc).headNode.colorize = p.IsColorized) :=
  ⟨fun _ _ _ _ => ⟨rfl, rfl, rfl, rfl, rfl⟩, fun _ _ _ => ⟨rfl, rfl⟩⟩

/-- A non-empty component name yields the bracketed prefix. -/
theorem applyLabel_of_ne_empty (name m : String) (h : name ≠ "") :
    applyLabel name m = "[" ++ name ++ "] " ++ m := by
  have hlen : 0 < name.length := by
    cases name with
    | mk data =>
      cases data with
      | nil => exact absurd rfl h
      | cons c cs => simp [String.length]
  simp [applyLabel, hlen]

/-- An empty component name leaves the message unchanged. -/
theorem applyLabel_empty (m : String) : applyLabel "" m = m := rfl

/-- Claim C8: component label prefixing is cumulative up the chain — a
hop with a non-empty label forwards "[label] " prepended to the incoming
text, a hop with an empty label forwards the text unchanged; and a root
with no label under a child labeled "LTST" logging "hello" emits exactly
the body "[LTST] hello" (before timestamp and level prefixing). -/
theorem component_label_composition :
    (∀ (n : LoggerNode) (p : Logger) (S : LogLevel) (m : String) (b : Bool),
      p.GetLogFacility ≠ LogFacility.None →
      S.toNat ≤ n.log_level.toNat →
      n.component_name ≠ "" →
      (Logger.child n p).Log S m b =
        LogEvent.forward S ("[" ++ n.component_name ++ "] " ++ m)
            (b || n.output_to_console) ::
          p.Log S ("[" ++ n.component_name ++ "] " ++ m)
            (b || n.output_to_console)) ∧
    (∀ (n : LoggerNode) (p : Logger) (S : LogLevel) (m : String) (b : Bool),
      p.GetLogFacility ≠ LogFacility.None →
      S.toNat ≤ n.log_level.toNat →
      n.component_name = "" →
      (Logger.child n p).Log S m b =
        LogEvent.forward S m (b || n.output_to_console) ::
          p.Log S m (b || n.output_to_console)) ∧
    (Logger.mkChild "LTST" (Logger.mkRoot "" "" false false) false).Log
        LogLevel.Info "hello" false =
      [LogEvent.forward LogLevel.Info "[LTST] hello" false,
       LogEvent.emit LogLevel.Info "[LTST] hello" false] := by
  refine ⟨?_, ?_, by decide⟩
  · intro n p S m b hf hs hn
    have hl : ¬ n.log_level.toNat < S.toNat := by omega
    simp [Logger.Log, hf, hl, applyLabel_of_ne_empty _ _ hn]
  · intro n p S m b hf hs hn
    have hl : ¬ n.log_level.toNat < S.toNat := by omega
    simp [Logger.Log, hf, hl, hn, applyLabel_empty]

/-- Witness for C8: concrete forwarding of "hello" through a hop labeled
"LTST". -/
theorem component_label_composition_witness :
    (Logger.child nodeLTST (Logger.root nodeConsoleInfo)).Log
        LogLevel.Info "hello" false =
      LogEvent.forward LogLevel.Info "[LTST] hello" false ::
        (Logger.root nodeConsoleInfo).Log LogLevel.Info "[LTST] hello"
          false :=
  component_label_composition.1 nodeLTST (Logger.root nodeConsoleInfo)
    LogLevel.Info "hello" false (by decide) (by decide) (by decide)

/-- Claim C5: `SetLogFacility` is a no-op on every child node, and a
no-op on the root when the requested facility equals the current one;
otherwise the root closes the previous facility's resource (syslog
deregistration or file close), and when the new facility is `File` and
the open fails it reports an error through the console stream and stores
`None` in place of `File`. -/
theorem setLogFacility_spec :
    (∀ (n : LoggerNode) (p : Logger) (f : LogFacility) (fn : String)
        (ok : Bool),
      (Logger.child n p).SetLogFacility f fn ok = (Logger.child n p, [])) ∧
    (∀ (n : LoggerNode) (fn : String) (ok : Bool),
      (Logger.root n).SetLogFacility n.log_facility fn ok =
        (Logger.root n, [])) ∧
    (∀ (n : LoggerNode) (f : LogFacility) (fn : String) (ok : Bool),
      n.log_facility ≠ f →
      (n.log_facility = LogFacility.Syslog →
        SinkEffect.closeSyslog ∈ ((Logger.root n).SetLogFacility f fn ok).2) ∧
      (n.log_facility = LogFacility.File →
        SinkEffect.closeFile ∈ ((Logger.root n).SetLogFacility f fn ok).2)) ∧
    (∀ (n : LoggerNode) (fn : String),
      n.log_facility ≠ LogFacility.File →
      ((Logger.root n).SetLogFacility LogFacility.File fn false).1 =
        Logger.root { n with log_facility := LogFacility.None } ∧
      SinkEffect.consoleError
          ("ERROR: Logger unable to open log file for writing: " ++ fn) ∈
        ((Logger.root n).SetLogFacility LogFacility.File fn false).2) := by
  refine ⟨fun n p f fn ok => rfl, fun n fn ok => by
    simp [Logger.SetLogFacility], ?_, ?_⟩
  · intro n f fn ok hne
    constructor
    · intro h
      rw [h] at hne
      simp [Logger.SetLogFacility, hne, h]
    · intro h
      rw [h] at hne
      simp [Logger.SetLogFacility, hne, h]
  · intro n fn hne
    constructor
    · simp [Logger.SetLogFacility, hne]
    · simp [Logger.SetLogFacility, hne]

/-- Witness for C5: on a root currently at Console, requesting `File`
with a failing open stores `None` and reports a console error. -/
theorem setLogFacility_spec_witness :
    ((Logger.root nodeConsoleInfo).SetLogFacility LogFacility.File
        "log.txt" false).1 =
      Logger.root { nodeConsoleInfo with log_facility := LogFacility.None } ∧
    SinkEffect.consoleError
        ("ERROR: Logger unable to open log file for writing: " ++
          "log.txt") ∈
      ((Logger.root nodeConsoleInfo).SetLogFacility LogFacility.File
        "log.txt" false).2 :=
  setLogFacility_spec.2.2.2 nodeConsoleInfo "log.txt" (by decide)

/-- Claim C6: the string overload of `SetLogLevel` maps each of
CRITICAL, ERROR, WARNING, INFO, DEBUG case-insensitively to the
corresponding level; every other string sets the threshold to Info and
issues exactly one Error-severity `Log` call through this node. -/
theorem setLogLevelString_spec :
    (∀ (l : Logger) (lv : LogLevel),
      (Logger.SetLogLevel l lv).GetLogLevel = lv) ∧
    (∀ (l : Logger) (s : String), toUpperStr s = "CRITICAL" →
      l.SetLogLevelString s = (l.SetLogLevel LogLevel.Critical, [])) ∧
    (∀ (l : Logger) (s : String), toUpperStr s = "ERROR" →
      l.SetLogLevelString s = (l.SetLogLevel LogLevel.Error, [])) ∧
    (∀ (l : Logger) (s : String), toUpperStr s = "WARNING" →
      l.SetLogLevelString s = (l.SetLogLevel LogLevel.Warning, [])) ∧
    (∀ (l : Logger) (s : String), toUpperStr s = "INFO" →
      l.SetLogLevelString s = (l.SetLogLevel LogLevel.Info, [])) ∧
    (∀ (l : Logger) (s : String), toUpperStr s = "DEBUG" →
      l.SetLogLevelString s = (l.SetLogLevel LogLevel.Debug, [])) ∧
    (∀ (l : Logger) (s : String),
      toUpperStr s ∉
        (["CRITICAL", "ERROR", "WARNING", "INFO", "DEBUG"] : List String) →
      l.SetLogLevelString s =
        (l.SetLogLevel LogLevel.Info,
         [{ level := LogLevel.Error
            message := "Unknown log level \"" ++ s ++
              "\"; setting log level to \"INFO\""
            console := true }])) := by
  refine ⟨fun l lv => ?_, fun l s h => ?_, fun l s h => ?_, fun l s h => ?_,
    fun l s h => ?_, fun l s h => ?_, fun l s h => ?_⟩
  · cases l <;> rfl
  · simp [Logger.SetLogLevelString, h]
  · simp [Logger.SetLogLevelString, h]
  · simp [Logger.SetLogLevelString, h]
  · simp [Logger.SetLogLevelString, h]
  · simp [Logger.SetLogLevelString, h]
  · simp only [List.mem_cons, List.not_mem_nil, or_false, not_or] at h
    obtain ⟨h1, h2, h3, h4, h5⟩ := h
    simp [Logger.SetLogLevelString, h1, h2, h3, h4, h5]

/-- Witness for C6: "CrItIcAl" maps to Critical with no extra call,
while "foobar" stores Info and issues exactly one Error call. -/
theorem setLogLevelString_spec_witness :
    (Logger.root nodeConsoleInfo).SetLogLevelString "CrItIcAl" =
      ((Logger.root nodeConsoleInfo).SetLogLevel LogLevel.Critical, []) ∧
    (Logger.root nodeConsoleInfo).SetLogLevelString "foobar" =
      ((Logger.root nodeConsoleInfo).SetLogLevel LogLevel.Info,
       [{ level := LogLevel.Error
          message := "Unknown log level \"foobar\"; setting log level " ++
            "to \"INFO\""
          console := true }]) :=
  ⟨setLogLevelString_spec.2.1 (Logger.root nodeConsoleInfo) "CrItIcAl"
      (by decide),
   setLogLevelString_spec.2.2.2.2.2.2 (Logger.root nodeConsoleInfo)
      "foobar" (by decide)⟩

/-- Claim C3: when a capture buffer is owned by thread `T` and a
different thread's append attempt is still blocked when the bounded
one-second wait ends (the buffer was not released), the buffer issues an
Error-severity `Log` call noting the missing flush, force-resets its
busy flag, and the waiting thread proceeds as the new owner. -/
theorem thread_sync_timeout_takeover (buf : LoggingBuf) (tid : Nat)
    (hb : buf.busy = true) (ho : buf.owning_thread ≠ tid) :
    buf.thread_sync tid =
      ({ buf with busy := true, owning_thread := tid },
       [{ level := LogLevel.Error
          message := "Somebody forgot to call std::flush!?"
          console := false }]) ∧
    threadSyncWaitSeconds = 1 := by
  have hbeq : (buf.owning_thread == tid) = false := by
    simp [ho]
  refine ⟨?_, rfl⟩
  simp [LoggingBuf.thread_sync, LoggingBuf.waitPredicateHolds, hb, hbeq]

/-- Witness for C3: a buffer owned by thread 5 is taken over by thread 7
after the timed-out wait, with the error call issued. -/
theorem thread_sync_timeout_takeover_witness :
    LoggingBuf.thread_sync
        { text := "abc", busy := true, owning_thread := 5,
          log_level := LogLevel.Info, console := false } 7 =
      ({ text := "abc", busy := true, owning_thread := 7,
         log_level := LogLevel.Info, console := false },
       [{ level := LogLevel.Error
          message := "Somebody forgot to call std::flush!?"
          console := false }]) ∧
    threadSyncWaitSeconds = 1 :=
  thread_sync_timeout_takeover
    { text := "abc", busy := true, owning_thread := 5,
      log_level := LogLevel.Info, console := false } 7 rfl (by decide)

/-- Claim C4: a flush (`sync`) by the owning thread hands the buffer's
entire accumulated text to the owning node's `Log` exactly once, with
the buffer's fixed severity and console flag, clears the text, marks the
buffer not busy, and wakes one waiting thread. -/
theorem sync_flush_delivers (buf : LoggingBuf) (tid : Nat)
    (hb : buf.busy = true) (ho : buf.owning_thread = tid) :
    buf.sync tid =
      ({ buf with text := "", busy := false },
       [{ level := buf.log_level, message := buf.text,
          console := buf.console }],
       1) := by
  have hbeq : (buf.owning_thread == tid) = true := by
    simp [ho]
  simp [LoggingBuf.sync, LoggingBuf.thread_sync,
    LoggingBuf.waitPredicateHolds, hb, hbeq]

/-- Witness for C4: thread 5 flushing its owned buffer delivers "abc"
once at the buffer's severity and console flag, clears and releases the
buffer, and notifies one waiter. -/
theorem sync_flush_delivers_witness :
    LoggingBuf.sync
        { text := "abc", busy := true, owning_thread := 5,
          log_level := LogLevel.Warning, console := true } 5 =
      ({ text := "", busy := false, owning_thread := 5,
         log_level := LogLevel.Warning, console := true },
       [{ level := LogLevel.Warning, message := "abc", console := true }],
       1) :=
  sync_flush_delivers
    { text := "abc", busy := true, owning_thread := 5,
      log_level := LogLevel.Warning, console := true } 5 rfl rfl

end Cantina
